import Mathlib

set_option maxRecDepth 10000
set_option maxHeartbeats 2000000

/-!
Verification development for the `muni` repository (`muni_scraper.py`).

The development shallowly embeds the pieces of the program that the
checked properties are about:

* the San Francisco perimeter polygon `sf_perim`, the even-odd
  (crossing-number) point-in-polygon test behind
  `mplPath.Path(...).contains_point` together with `muniScraper.in_sf`,
  and the rejection-sampling loop `muniScraper.sample_sf`;
* the travel-time text parser `muniScraper.parse_times`, including the
  exact regular-expression searches `"[1-9] h"` and `"[0-9]{0,2} m"`
  (a space is required before the unit letter) and the Python
  exceptions the function can raise;
* `Database.record` with its `isinstance` field validation (Python
  semantics: every value is an `object`, `bool` is a subclass of `int`,
  `int` is not a `float`), the in-memory row buffer and the batched
  flush to storage;
* `muniScraper.run`, threading the class-level `timesdf` DataFrame
  (which is shared mutable state across invocations), the address and
  travel-time collaborator results, the null-row filter and the final
  `astype` casts.

Coordinates and float-valued cells are modelled as exact rationals;
outcomes of fallible Python code are modelled with `Except`/`Option`.
-/

/-! ### GeoSampler: the SF perimeter and point-in-polygon test -/

/-- Lat-lon coordinates for the perimeter of SF, verbatim from
`muniScraper.sf_perim` (100 vertices, not explicitly closed). -/
def sf_perim : List (ℚ × ℚ) :=
  [(37.708266, -122.393657), (37.708440, -122.485511), (37.724103, -122.485019),
   (37.726958, -122.483816), (37.729338, -122.485621), (37.730333, -122.489504),
   (37.728905, -122.491802), (37.729554, -122.493661), (37.729121, -122.496561),
   (37.731501, -122.498748), (37.725358, -122.503452), (37.727045, -122.506133),
   (37.732658, -122.507427), (37.735427, -122.506825), (37.775045, -122.511305),
   (37.778698, -122.513720), (37.779853, -122.509438), (37.780845, -122.509633),
   (37.781737, -122.493314), (37.787528, -122.493787), (37.787908, -122.491871),
   (37.787112, -122.491174), (37.788406, -122.489796), (37.788844, -122.489989),
   (37.790350, -122.485654), (37.810905, -122.477056), (37.809361, -122.476045),
   (37.808615, -122.471663), (37.803555, -122.459563), (37.804439, -122.453015),
   (37.805638, -122.453891), (37.806730, -122.447791), (37.805212, -122.447251),
   (37.805851, -122.442263), (37.806650, -122.442499), (37.807502, -122.435893),
   (37.806277, -122.435657), (37.804999, -122.433769), (37.806064, -122.425545),
   (37.807901, -122.421703), (37.808061, -122.417793), (37.808301, -122.415838),
   (37.809073, -122.415939), (37.808860, -122.412669), (37.807768, -122.407479),
   (37.806384, -122.404715), (37.803774, -122.401547), (37.792636, -122.390954),
   (37.791064, -122.389047), (37.789640, -122.388360), (37.787995, -122.387738),
   (37.778371, -122.387480), (37.777149, -122.390399), (37.776547, -122.389927),
   (37.776615, -122.387459), (37.771519, -122.386676), (37.768839, -122.385056),
   (37.765330, -122.386579), (37.763624, -122.387109), (37.763124, -122.386537),
   (37.763081, -122.385244), (37.762142, -122.385285), (37.761762, -122.383279),
   (37.759570, -122.381891), (37.759547, -122.381410), (37.758147, -122.381303),
   (37.757705, -122.381607), (37.755286, -122.381178), (37.755058, -122.384233),
   (37.754531, -122.384091), (37.754464, -122.383106), (37.754479, -122.383072),
   (37.753239, -122.383082), (37.753120, -122.384104), (37.748432, -122.382347),
   (37.748126, -122.386309), (37.747807, -122.390386), (37.748806, -122.392968),
   (37.747466, -122.393263), (37.746633, -122.390767), (37.746935, -122.375659),
   (37.740055, -122.367982), (37.739688, -122.374093), (37.732913, -122.375795),
   (37.732139, -122.374232), (37.734052, -122.372238), (37.731735, -122.369059),
   (37.731634, -122.365114), (37.729890, -122.362227), (37.728079, -122.362141),
   (37.728514, -122.357474), (37.726166, -122.357899), (37.725731, -122.365537),
   (37.723636, -122.362980), (37.722097, -122.364197), (37.719901, -122.363036),
   (37.716778, -122.364195), (37.724967, -122.377806), (37.722607, -122.381104),
   (37.724809, -122.387145), (37.721685, -122.383194), (37.720367, -122.383779),
   (37.716056, -122.376343), (37.709382, -122.381688), (37.710458, -122.390474),
   (37.708142, -122.393783)]

/-- Consecutive pairs of a vertex list: the open polyline edges. -/
def pathPairs : List α → List (α × α)
  | a :: b :: rest => (a, b) :: pathPairs (b :: rest)
  | _ => []

/-- Edges of the implicitly closed polygon: the polyline edges plus the
closing edge from the last vertex back to the first (matplotlib closes
the path when testing containment). -/
def cyclePairs : List α → List (α × α)
  | [] => []
  | a :: rest => pathPairs (a :: rest) ++ [(rest.getLastD a, a)]

/-- One edge's contribution to the crossing count of the ray cast from
point `p` in the direction of increasing second coordinate: the edge's
first-coordinate interval must straddle `p.1`, and the ray must pass
strictly before the edge's intersection with the scan line.  This is
the standard even-odd ray-crossing test implemented by
`matplotlib.path.Path.contains_point`. -/
def crossesRay (e : (ℚ × ℚ) × (ℚ × ℚ)) (p : ℚ × ℚ) : Bool :=
  (decide (p.1 < e.1.1) != decide (p.1 < e.2.1)) &&
    decide (p.2 < (e.2.2 - e.1.2) * (p.1 - e.1.1) / (e.2.1 - e.1.1) + e.1.2)

/-- Even-odd point-in-polygon test: the point is inside iff the ray
crosses an odd number of edges of the closed polygon. -/
def contains_point (poly : List (ℚ × ℚ)) (p : ℚ × ℚ) : Bool :=
  decide (((cyclePairs poly).countP (fun e => crossesRay e p)) % 2 = 1)

/-- Embeds `muniScraper.in_sf`: `self.sfPath.contains_point(tup) == 1`
(the comparison with `1` is the identity on the boolean result). -/
def in_sf (tup : ℚ × ℚ) : Bool :=
  contains_point sf_perim tup

/-- Embeds `muniScraper.sample_sf`.  The source loops
`while not insf == 1`, drawing a fresh uniform candidate from the
bounding box each iteration; the stream of candidate draws is made an
explicit argument, and exhausting it models a loop that never accepted
a point. -/
def sample_sf : List (ℚ × ℚ) → Option (ℚ × ℚ)
  | [] => none
  | c :: cs => if contains_point sf_perim c then some c else sample_sf cs

/-- The latitudes of the perimeter vertices (`self.lats`). -/
def lats : List ℚ := sf_perim.map Prod.fst

/-- The longitudes of the perimeter vertices (`self.lons`). -/
def lons : List ℚ := sf_perim.map Prod.snd

/-- Embeds `np.array(l).min()` on a nonempty list. -/
def npMin : List ℚ → ℚ
  | [] => 0
  | a :: l => l.foldl min a

/-- Embeds `np.array(l).max()` on a nonempty list. -/
def npMax : List ℚ → ℚ
  | [] => 0
  | a :: l => l.foldl max a

/-- Lower latitude bound of the bounding box (`self.ymin`). -/
def ymin : ℚ := npMin lats

/-- Upper latitude bound of the bounding box (`self.ymax`). -/
def ymax : ℚ := npMax lats

/-- Lower longitude bound of the bounding box (`self.xmin`). -/
def xmin : ℚ := npMin lons

/-- Upper longitude bound of the bounding box (`self.xmax`). -/
def xmax : ℚ := npMax lons

/-! ### DurationParser: `muniScraper.parse_times` -/

/-- Python exceptions that `parse_times` can raise: `AttributeError`
(calling `.group()` on the `None` returned by a failed `re.search`)
and `ValueError` (calling `int` on an empty string). -/
inductive PyErr where
  | attributeError
  | valueError
deriving DecidableEq

/-- Decidable equality of `Except` results, used to evaluate the
embedded fallible functions on concrete inputs. -/
instance [DecidableEq e] [DecidableEq a] : DecidableEq (Except e a) := fun x y =>
  match x, y with
  | .error u, .error v =>
    if h : u = v then .isTrue (by rw [h]) else .isFalse (fun hc => h (by injection hc))
  | .ok u, .ok v =>
    if h : u = v then .isTrue (by rw [h]) else .isFalse (fun hc => h (by injection hc))
  | .error _, .ok _ => .isFalse (fun hc => Except.noConfusion hc)
  | .ok _, .error _ => .isFalse (fun hc => Except.noConfusion hc)

/-- Anchored match of the regex `"[1-9] h"` at the head of the
character list: a nonzero digit, a space, then the letter `h`. -/
def matchHourAt : List Char → Option Char
  | c1 :: c2 :: c3 :: _ =>
    if ('1' ≤ c1 ∧ c1 ≤ '9') ∧ c2 = ' ' ∧ c3 = 'h' then some c1 else none
  | _ => none

/-- Embeds `re.search("[1-9] h", s)`: leftmost anchored match wins;
returns the matched digit (the rest of the processing strips `" h"`). -/
def searchHourPat : List Char → Option Char
  | [] => none
  | c :: rest =>
    match matchHourAt (c :: rest) with
    | some d => some d
    | none => searchHourPat rest

/-- Anchored match of the regex `"[0-9]{0,2} m"` at the head of the
character list, with the greedy backtracking order of the `re` engine:
two digits, then one digit, then zero digits, each followed by a space
and the letter `m`.  Returns the matched digit characters. -/
def matchMinuteAt : List Char → Option (List Char)
  | c1 :: c2 :: c3 :: c4 :: _ =>
    if c1.isDigit ∧ c2.isDigit ∧ c3 = ' ' ∧ c4 = 'm' then some [c1, c2]
    else if c1.isDigit ∧ c2 = ' ' ∧ c3 = 'm' then some [c1]
    else if c1 = ' ' ∧ c2 = 'm' then some []
    else none
  | [c1, c2, c3] =>
    if c1.isDigit ∧ c2 = ' ' ∧ c3 = 'm' then some [c1]
    else if c1 = ' ' ∧ c2 = 'm' then some []
    else none
  | [c1, c2] => if c1 = ' ' ∧ c2 = 'm' then some [] else none
  | _ => none

/-- Embeds `re.search("[0-9]{0,2} m", s)`: scan left to right for the
first position with an anchored match. -/
def searchMinutePat : List Char → Option (List Char)
  | [] => none
  | c :: rest =>
    match matchMinuteAt (c :: rest) with
    | some ds => some ds
    | none => searchMinutePat rest

/-- Value of `int(...)` on a nonempty string of digit characters. -/
def digitsToNat (ds : List Char) : Nat :=
  ds.foldl (fun a c => 10 * a + (c.toNat - '0'.toNat)) 0

/-- Embeds `muniScraper.parse_times`, preserving evaluation order and
the exceptions the Python code can raise:

* `"h" in timestr` triggers `re.search("[1-9] h", timestr)`; a failed
  search yields `None` and the subsequent `.group()` raises
  `AttributeError`; the matched digit is multiplied by 60;
* `"m" in timestr` triggers `re.search("[0-9]{0,2} m", timestr)`; a
  failed search raises `AttributeError`, a match of zero digits makes
  `int("")` raise `ValueError`;
* with neither trigger character present, `hh = mm = 0` and the
  function returns `0`. -/
def parse_times (timestr : String) : Except PyErr Nat :=
  let cs := timestr.toList
  let hh : Except PyErr Nat :=
    if 'h' ∈ cs then
      match searchHourPat cs with
      | none => .error .attributeError
      | some d => .ok ((d.toNat - '0'.toNat) * 60)
    else .ok 0
  match hh with
  | .error e => .error e
  | .ok h =>
    let mm : Except PyErr Nat :=
      if 'm' ∈ cs then
        match searchMinutePat cs with
        | none => .error .attributeError
        | some [] => .error .valueError
        | some ds => .ok (digitsToNat ds)
      else .ok 0
    match mm with
    | .error e => .error e
    | .ok m => .ok (h + m)

/-! ### Python values and `Database` -/

/-- Python runtime values as far as the scraper's rows are concerned. -/
inductive PyVal where
  | none
  | str (s : String)
  | int (n : ℤ)
  | float (q : ℚ)
  | bool (b : Bool)
deriving DecidableEq

/-- The classes appearing in `Database.record`'s `isinstance` checks. -/
inductive PyType where
  | object
  | float
  | int
deriving DecidableEq

/-- Python `isinstance`: every value is an `object`; `bool` is a
subclass of `int`; `int` values are not `float` instances. -/
def isinstance : PyVal → PyType → Bool
  | _, .object => true
  | .float _, .float => true
  | _, .float => false
  | .int _, .int => true
  | .bool _, .int => true
  | _, .int => false

/-- The dtype tuple of `Database.record`:
`(object, float, float, int, object, float, float, int, int, int, object)`. -/
def pyDtypes : List PyType :=
  [.object, .float, .float, .int, .object, .float, .float, .int, .int, .int, .object]

/-- The validation loop of `Database.record`: walk the dtype tuple with
index `idx`, testing `isinstance(data[idx], dtype)`.  Indexing past the
end of `data` raises `IndexError` (modelled as `Except.error ()`); the
first failing check short-circuits with result `false`. -/
def checkLoop : List PyType → List PyVal → Except Unit Bool
  | [], _ => .ok true
  | _ :: _, [] => .error ()
  | t :: ts, v :: vs => if isinstance v t then checkLoop ts vs else .ok false

/-- State owned by a `Database` object: the in-memory row buffer, the
rows written to the sqlite store, and the sizes of the batched
transactions in the order they were committed. -/
structure DBState where
  data_buffer : List (List PyVal)
  storage : List (List PyVal)
  txns : List Nat
deriving DecidableEq

/-- A fresh `Database`: empty buffer, nothing written. -/
def dbInit : DBState := ⟨[], [], []⟩

/-- Embeds `Database.record`.  The Python function validates the row,
prints and returns `None` on a failed check, otherwise appends the row
to `data_buffer`; when the buffer length reaches `buffer_size` it
writes every buffered row in one `executemany` + `commit` transaction
and clears the buffer.  Both branches fall off the end of the function,
so the Python return value is always `None`. -/
def Database.record (buffer_size : Nat) (db : DBState) (data : List PyVal) :
    Except Unit (DBState × PyVal) :=
  match checkLoop pyDtypes data with
  | .error e => .error e
  | .ok false => .ok (db, PyVal.none)
  | .ok true =>
    if buffer_size ≤ (db.data_buffer ++ [data]).length then
      .ok (⟨[], db.storage ++ (db.data_buffer ++ [data]),
            db.txns ++ [(db.data_buffer ++ [data]).length]⟩, PyVal.none)
    else
      .ok (⟨db.data_buffer ++ [data], db.storage, db.txns⟩, PyVal.none)

/-- Feeding a sequence of rows to `Database.record`, as the usage
example's collection loop does. -/
def Database.recordSeq (buffer_size : Nat) (db : DBState) :
    List (List PyVal) → Except Unit DBState
  | [] => .ok db
  | r :: rs =>
    match Database.record buffer_size db r with
    | .error e => .error e
    | .ok (db', _) => Database.recordSeq buffer_size db' rs

/-- A concrete trip row with no null fields, every field of its
expected type (text coordinates floats, durations ints). -/
def rowA : List PyVal :=
  [.str "addr a", .float 1, .float 2, .int 3, .str "addr d", .float 4, .float 5,
   .int 6, .int 7, .int 8, .str "ts1"]

/-- A second well-typed trip row. -/
def rowB : List PyVal :=
  [.str "addr b", .float 6, .float 7, .int 8, .str "addr e", .float 9, .float 10,
   .int 11, .int 12, .int 13, .str "ts2"]

/-- A row whose coordinate field (index 1, `arrive_lat`) holds a
non-numeric value. -/
def rowBad : List PyVal :=
  [.str "addr a", .str "oops", .float 2, .int 3, .str "addr d", .float 4, .float 5,
   .int 6, .int 7, .int 8, .str "ts1"]

/-! ### TripCollector: `muniScraper.run` over the class-level `timesdf` -/

/-- One row of the `timesdf` DataFrame, with the source's column set. -/
structure DFRow where
  arrive_add : PyVal
  arrive_lat : PyVal
  arrive_lon : PyVal
  bicycle : PyVal
  depart_add : PyVal
  depart_lat : PyVal
  depart_lon : PyVal
  driving : PyVal
  transit : PyVal
  walk : PyVal
  timestamp : PyVal
deriving DecidableEq

/-- The cells of a row, in the source's `columns` order. -/
def DFRow.cells (r : DFRow) : List PyVal :=
  [r.arrive_add, r.arrive_lat, r.arrive_lon, r.bicycle, r.depart_add,
   r.depart_lat, r.depart_lon, r.driving, r.transit, r.walk, r.timestamp]

/-- Number of null cells of a row (`timesdf.isnull().sum(1)`); pandas
treats both `None` and `NaN` as null. -/
def DFRow.nullCount (r : DFRow) : Nat :=
  r.cells.countP (fun v => decide (v = PyVal.none))

/-- The class-level working DataFrame
`timesdf = pd.DataFrame(columns=columns, index=(0,1))`: two rows.  It
is a class attribute, so it is shared, mutable state that survives
across calls of `run`. -/
structure TimesDF where
  row0 : DFRow
  row1 : DFRow
deriving DecidableEq

/-- A row of the freshly constructed DataFrame: every cell `NaN`. -/
def dfRowInit : DFRow :=
  ⟨.none, .none, .none, .none, .none, .none, .none, .none, .none, .none, .none⟩

/-- The freshly constructed class-level `timesdf`. -/
def timesdf0 : TimesDF := ⟨dfRowInit, dfRowInit⟩

/-- Result of one `get_times()` call when it returns a dict: one entry
per travel mode, each either parsed minutes or `None` (no text found
for that mode before the retry budget ran out). -/
structure GTimes where
  driving : Option Nat
  transit : Option Nat
  walk : Option Nat
  bicycle : Option Nat
deriving DecidableEq

/-- Store an optional travel time into a DataFrame cell. -/
def optPy : Option Nat → PyVal
  | Option.none => PyVal.none
  | some n => PyVal.int n

/-- The `if gt: for key, val in gt.items(): timesdf.loc[i, key] = val`
step: a falsy `gt` (the `None` from a timed-out `get_times`) assigns
nothing, leaving whatever the cells held before; a dict assigns all
four modes. -/
def applyGT (r : DFRow) : Option GTimes → DFRow
  | Option.none => r
  | some g =>
    { r with driving := optPy g.driving, transit := optPy g.transit,
             walk := optPy g.walk, bicycle := optPy g.bicycle }

/-- Outcomes of the external collaborators during one `run()` cycle:
the two sampled coordinates, the two reverse-geocoding results (the
geolocator can raise), the two `get_times()` results media and the two
timestamps, modelled as opaque strings. -/
structure RunInputs where
  arrive : ℚ × ℚ
  depart : ℚ × ℚ
  addr_arrive : Except Unit String
  addr_depart : Except Unit String
  gt0 : Option GTimes
  gt1 : Option GTimes
  ts0 : String
  ts1 : String

/-- The `astype(np.float64)` cast applied to the coordinate columns of
the filtered frame.  Numeric values cast to float, nulls stay null
(`NaN`), anything else raises. -/
def castFloatV : PyVal → Except Unit PyVal
  | .float q => .ok (.float q)
  | .int n => .ok (.float (n : ℚ))
  | .bool b => .ok (.float (if b then 1 else 0))
  | .none => .ok .none
  | .str _ => .error ()

/-- The `astype(np.int64)` cast applied to the duration columns of the
filtered frame.  In the scraper these cells only ever hold Python ints
(from `parse_times`) or nulls, and `astype(np.int64)` raises on nulls. -/
def castIntV : PyVal → Except Unit PyVal
  | .int n => .ok (.int n)
  | .bool b => .ok (.int (if b then 1 else 0))
  | _ => .error ()

/-- The `astype(str)` cast applied to the timestamp column: `str()` of
the cell, which never raises.  In the scraper this cell always holds
the (string-modelled) timestamp, on which the cast is the identity. -/
def castStrV : PyVal → PyVal
  | .str s => .str s
  | .none => .str "nan"
  | .int n => .str (toString n)
  | .float q => .str (toString q)
  | .bool b => .str (cond b "True" "False")

/-- The column casts of `run` applied to one surviving row: the four
coordinate columns cast to float, the four duration columns to int,
the timestamp column to str; the first failing cast raises. -/
def castRow (r : DFRow) : Except Unit DFRow :=
  match castFloatV r.arrive_lat with
  | .error e => .error e
  | .ok alat =>
  match castFloatV r.arrive_lon with
  | .error e => .error e
  | .ok alon =>
  match castFloatV r.depart_lat with
  | .error e => .error e
  | .ok dlat =>
  match castFloatV r.depart_lon with
  | .error e => .error e
  | .ok dlon =>
  match castIntV r.bicycle with
  | .error e => .error e
  | .ok bi =>
  match castIntV r.driving with
  | .error e => .error e
  | .ok dr =>
  match castIntV r.transit with
  | .error e => .error e
  | .ok tr =>
  match castIntV r.walk with
  | .error e => .error e
  | .ok wa =>
  .ok { r with arrive_lat := alat, arrive_lon := alon, depart_lat := dlat,
               depart_lon := dlon, bicycle := bi, driving := dr, transit := tr,
               walk := wa, timestamp := castStrV r.timestamp }

/-- The column casts applied to every surviving row. -/
def castRows : List DFRow → Except Unit (List DFRow)
  | [] => .ok []
  | r :: rs =>
    match castRow r with
    | .error e => .error e
    | .ok r' =>
      match castRows rs with
      | .error e => .error e
      | .ok rs' => .ok (r' :: rs')

/-- Embeds `muniScraper.run`.  `st` is the current content of the
class-level `timesdf` (the source binds `timesdf = self.timesdf`, an
alias of the shared class attribute, and mutates it in place).  Steps:

1. write row 0's arrive/depart coordinates and the two reverse-geocoded
   addresses (a geocoder failure propagates and aborts the call);
2. write row 0's timestamp and, when `get_times()` returned a dict,
   the four travel modes;
3. swap arrive and depart, write row 1's coordinates, copy row 1's
   addresses from row 0's (swapped), and repeat step 2 for row 1;
4. keep the rows with zero nulls, cast the coordinate, duration and
   timestamp columns of the kept rows, print and return them.

The returned pair is (the class attribute's new content, the returned
rows).  The model drops the partially mutated class state on the error
paths, which no checked property observes. -/
def muniScraper.run (st : TimesDF) (inp : RunInputs) :
    Except Unit (TimesDF × List DFRow) :=
  match inp.addr_arrive with
  | .error e => .error e
  | .ok aAdd =>
    match inp.addr_depart with
    | .error e => .error e
    | .ok dAdd =>
      let row0 :=
        { st.row0 with
          arrive_lat := .float inp.arrive.1, arrive_lon := .float inp.arrive.2,
          arrive_add := .str aAdd,
          depart_lat := .float inp.depart.1, depart_lon := .float inp.depart.2,
          depart_add := .str dAdd }
      let row0 := applyGT { row0 with timestamp := .str inp.ts0 } inp.gt0
      let row1 :=
        { st.row1 with
          arrive_lat := .float inp.depart.1, arrive_lon := .float inp.depart.2,
          depart_lat := .float inp.arrive.1, depart_lon := .float inp.arrive.2,
          arrive_add := row0.depart_add, depart_add := row0.arrive_add }
      let row1 := applyGT { row1 with timestamp := .str inp.ts1 } inp.gt1
      let kept :=
        (if row0.nullCount = 0 then [row0] else []) ++
          (if row1.nullCount = 0 then [row1] else [])
      match castRows kept with
      | .error e => .error e
      | .ok out => .ok (⟨row0, row1⟩, out)

/-- A cycle whose collaborators all succeed: coordinates (1,2) and
(3,4), addresses "A" and "B", full travel-time dicts (outbound driving
time `d`, used to tell consecutive cycles apart), timestamps "t0"/"t1". -/
def inpGood (d : Nat) : RunInputs :=
  ⟨(1, 2), (3, 4), .ok "A", .ok "B", some ⟨some d, some 11, some 12, some 13⟩,
    some ⟨some 5, some 6, some 7, some 8⟩, "t0", "t1"⟩

/-- A cycle in which the outbound `get_times()` came back `None` (and
everything else succeeded), so the outbound duration cells are never
assigned in this cycle. -/
def inpStale : RunInputs :=
  ⟨(5, 6), (7, 8), .ok "C", .ok "D", Option.none,
    some ⟨some 9, some 10, some 11, some 12⟩, "t2", "t3"⟩

/-- A cycle in which reverse-geocoding the arrive point raises. -/
def inpGeoFail : RunInputs :=
  ⟨(1, 2), (3, 4), .error (), .ok "B", Option.none, Option.none, "t0", "t1"⟩

/-- A cycle in which reverse-geocoding the depart point raises. -/
def inpGeoFail2 : RunInputs :=
  ⟨(1, 2), (3, 4), .ok "A", .error (), some ⟨some 1, some 1, some 1, some 1⟩,
    Option.none, "t0", "t1"⟩

/-- A class-state whose outbound row still holds a driving duration
written by some earlier cycle. -/
def stX : TimesDF := ⟨{ dfRowInit with driving := PyVal.int 42 }, dfRowInit⟩

/-- The outbound row produced by a cycle with inputs `inpGood 30`. -/
def rowOutA : DFRow :=
  ⟨.str "A", .float 1, .float 2, .int 13, .str "B", .float 3, .float 4,
    .int 30, .int 11, .int 12, .str "t0"⟩

/-- The return row produced by a cycle with inputs `inpGood 30`. -/
def rowOutB : DFRow :=
  ⟨.str "B", .float 3, .float 4, .int 8, .str "A", .float 1, .float 2,
    .int 5, .int 6, .int 7, .str "t1"⟩

/-- Two consecutive cycles: run once from the fresh class state, then
run again on whatever the first call left in the class attribute. -/
def runTwice (inp1 inp2 : RunInputs) : Except Unit (TimesDF × List DFRow) :=
  match muniScraper.run timesdf0 inp1 with
  | .error e => .error e
  | .ok (st, _) => muniScraper.run st inp2

/-- The `driving` column of the rows returned by the second of two
consecutive cycles. -/
def secondRunDriving (inp1 inp2 : RunInputs) : Option (List PyVal) :=
  match runTwice inp1 inp2 with
  | .error _ => Option.none
  | .ok (_, rows) => some (rows.map DFRow.driving)

/-! ### Lemmas about the polygon edge structure -/

theorem mem_pathPairs : ∀ (l : List α) (e : α × α), e ∈ pathPairs l → e.1 ∈ l ∧ e.2 ∈ l
  | [], _, h => by simp [pathPairs] at h
  | [_], _, h => by simp [pathPairs] at h
  | a :: b :: rest, e, h => by
    rw [pathPairs] at h
    rcases List.mem_cons.mp h with h | h
    · subst h
      exact ⟨List.mem_cons_self a _, List.mem_cons_of_mem a (List.mem_cons_self b rest)⟩
    · have ih := mem_pathPairs (b :: rest) e h
      exact ⟨List.mem_cons_of_mem a ih.1, List.mem_cons_of_mem a ih.2⟩

theorem getLastD_mem : ∀ (l : List α) (a : α), l.getLastD a ∈ a :: l
  | [], a => by simp
  | b :: t, a => by
    rw [List.getLastD_cons]
    exact List.mem_cons_of_mem a (getLastD_mem t b)

theorem mem_cyclePairs : ∀ (l : List α) (e : α × α), e ∈ cyclePairs l → e.1 ∈ l ∧ e.2 ∈ l
  | [], _, h => by simp [cyclePairs] at h
  | a :: rest, e, h => by
    rw [cyclePairs] at h
    rcases List.mem_append.mp h with h | h
    · exact mem_pathPairs _ _ h
    · have he : e = (rest.getLastD a, a) := List.mem_singleton.mp h
      subst he
      exact ⟨getLastD_mem rest a, List.mem_cons_self a rest⟩

theorem foldl_min_le_init : ∀ (l : List ℚ) (a : ℚ), l.foldl min a ≤ a
  | [], a => le_refl a
  | b :: t, a => by
    rw [List.foldl_cons]
    exact le_trans (foldl_min_le_init t (min a b)) (min_le_left a b)

theorem foldl_min_le_mem : ∀ (l : List ℚ) (a x : ℚ), x ∈ l → l.foldl min a ≤ x
  | [], _, _, h => by simp at h
  | b :: t, a, x, h => by
    rw [List.foldl_cons]
    rcases List.mem_cons.mp h with rfl | h
    · exact le_trans (foldl_min_le_init t (min a x)) (min_le_right a x)
    · exact foldl_min_le_mem t (min a b) x h

theorem foldl_init_le_max : ∀ (l : List ℚ) (a : ℚ), a ≤ l.foldl max a
  | [], a => le_refl a
  | b :: t, a => by
    rw [List.foldl_cons]
    exact le_trans (le_max_left a b) (foldl_init_le_max t (max a b))

theorem foldl_mem_le_max : ∀ (l : List ℚ) (a x : ℚ), x ∈ l → x ≤ l.foldl max a
  | [], _, _, h => by simp at h
  | b :: t, a, x, h => by
    rw [List.foldl_cons]
    rcases List.mem_cons.mp h with rfl | h
    · exact le_trans (le_max_right a x) (foldl_init_le_max t (max a x))
    · exact foldl_mem_le_max t (max a b) x h

theorem npMin_le_mem (l : List ℚ) (x : ℚ) (h : x ∈ l) : npMin l ≤ x := by
  cases l with
  | nil => simp at h
  | cons a t =>
    rw [npMin]
    rcases List.mem_cons.mp h with rfl | h
    · exact foldl_min_le_init t x
    · exact foldl_min_le_mem t a x h

theorem npMax_ge_mem (l : List ℚ) (x : ℚ) (h : x ∈ l) : x ≤ npMax l := by
  cases l with
  | nil => simp at h
  | cons a t =>
    rw [npMax]
    rcases List.mem_cons.mp h with rfl | h
    · exact foldl_init_le_max t x
    · exact foldl_mem_le_max t a x h

theorem sf_vertex_bounds (v : ℚ × ℚ) (hv : v ∈ sf_perim) :
    ymin ≤ v.1 ∧ v.1 ≤ ymax ∧ xmin ≤ v.2 ∧ v.2 ≤ xmax := by
  have h1 : v.1 ∈ lats := List.mem_map_of_mem Prod.fst hv
  have h2 : v.2 ∈ lons := List.mem_map_of_mem Prod.snd hv
  exact ⟨npMin_le_mem lats v.1 h1, npMax_ge_mem lats v.1 h1,
    npMin_le_mem lons v.2 h2, npMax_ge_mem lons v.2 h2⟩

/-! ### Parity of boundary straddles along a closed polygon -/

theorem pathPairs_flip_parity (f : α → Bool) :
    ∀ (l : List α) (a : α),
      ((pathPairs (a :: l)).countP (fun e => f e.1 != f e.2)) % 2 =
        (if f a = f (l.getLastD a) then 0 else 1)
  | [], a => by simp [pathPairs]
  | b :: t, a => by
    have hstep : pathPairs (a :: b :: t) = (a, b) :: pathPairs (b :: t) := rfl
    have ih := pathPairs_flip_parity f t b
    rw [hstep, List.countP_cons, List.getLastD_cons]
    generalize hgen : (pathPairs (b :: t)).countP (fun e => f e.1 != f e.2) = n at ih ⊢
    revert ih
    cases h1 : f a <;> cases h2 : f b <;> cases h3 : f (t.getLastD b) <;> intro ih <;>
    first
      | (have ih2 : n % 2 = 0 := ih
         first
           | (show (n + 0) % 2 = 0; omega)
           | (show (n + 1) % 2 = 0; omega)
           | (show (n + 0) % 2 = 1; omega)
           | (show (n + 1) % 2 = 1; omega))
      | (have ih2 : n % 2 = 1 := ih
         first
           | (show (n + 0) % 2 = 0; omega)
           | (show (n + 1) % 2 = 0; omega)
           | (show (n + 0) % 2 = 1; omega)
           | (show (n + 1) % 2 = 1; omega))

theorem cyclePairs_flip_even (f : α → Bool) (l : List α) :
    ((cyclePairs l).countP (fun e => f e.1 != f e.2)) % 2 = 0 := by
  cases l with
  | nil => simp [cyclePairs]
  | cons a t =>
    rw [cyclePairs, List.countP_append]
    have hp := pathPairs_flip_parity f t a
    generalize hgen : (pathPairs (a :: t)).countP (fun e => f e.1 != f e.2) = n at hp ⊢
    rw [List.countP_cons, List.countP_nil]
    revert hp
    cases h1 : f a <;> cases h2 : f (t.getLastD a) <;> intro hp <;>
    first
      | (have hp2 : n % 2 = 0 := hp
         first
           | (show (n + (0 + 0)) % 2 = 0; omega)
           | (show (n + (0 + 1)) % 2 = 0; omega))
      | (have hp2 : n % 2 = 1 := hp
         first
           | (show (n + (0 + 0)) % 2 = 0; omega)
           | (show (n + (0 + 1)) % 2 = 0; omega))

/-! ### The ray-edge intersection stays within the edge's x-range -/

theorem t_combination_bounds (t a b : ℚ) (ht0 : 0 ≤ t) (ht1 : t ≤ 1) :
    min a b ≤ a + (b - a) * t ∧ a + (b - a) * t ≤ max a b := by
  constructor
  · rcases le_total a b with hab | hab
    · rw [min_eq_left hab]; nlinarith
    · rw [min_eq_right hab]; nlinarith
  · rcases le_total a b with hab | hab
    · rw [max_eq_right hab]; nlinarith
    · rw [max_eq_left hab]; nlinarith

theorem crossing_x_bounds (v w : ℚ × ℚ) (py : ℚ)
    (h : decide (py < v.1) ≠ decide (py < w.1)) :
    min v.2 w.2 ≤ (w.2 - v.2) * (py - v.1) / (w.1 - v.1) + v.2 ∧
      (w.2 - v.2) * (py - v.1) / (w.1 - v.1) + v.2 ≤ max v.2 w.2 := by
  have hx : ¬(py < v.1 ↔ py < w.1) := fun hiff => h (decide_eq_decide.mpr hiff)
  have hkey : 0 ≤ (py - v.1) / (w.1 - v.1) ∧ (py - v.1) / (w.1 - v.1) ≤ 1 := by
    by_cases h1 : py < v.1
    · have h2 : ¬py < w.1 := fun h2 => hx ⟨fun _ => h2, fun _ => h1⟩
      have hd : w.1 - v.1 < 0 := by
        have := not_lt.mp h2
        linarith
      constructor
      · rw [le_div_iff_of_neg hd]
        have := not_lt.mp h2
        linarith
      · rw [div_le_iff_of_neg hd]
        have := not_lt.mp h2
        linarith
    · have h2 : py < w.1 := by
        by_contra h2
        exact hx ⟨fun hh => absurd hh h1, fun hh => absurd hh h2⟩
      have hd : 0 < w.1 - v.1 := by
        have := not_lt.mp h1
        linarith
      constructor
      · exact div_nonneg (by linarith [not_lt.mp h1]) (le_of_lt hd)
      · rw [div_le_one hd]
        linarith
  have hrw : (w.2 - v.2) * (py - v.1) / (w.1 - v.1) + v.2 =
      v.2 + (w.2 - v.2) * ((py - v.1) / (w.1 - v.1)) := by
    rw [mul_div_assoc]; ring
  rw [hrw]
  exact t_combination_bounds ((py - v.1) / (w.1 - v.1)) v.2 w.2 hkey.1 hkey.2

/-- C1: every coordinate returned by the rejection-sampling loop
`sample_sf` passes the point-in-polygon membership test `in_sf`:
candidates drawn from the bounding box are discarded until one
satisfies `contains_point`, so an accepted point is always inside. -/
theorem sample_sf_in_sf :
    ∀ (cands : List (ℚ × ℚ)) (p : ℚ × ℚ), sample_sf cands = some p → in_sf p = true
  | [], p, h => by simp [sample_sf] at h
  | c :: cs, p, h => by
    rw [sample_sf] at h
    by_cases hc : contains_point sf_perim c = true
    · rw [if_pos hc] at h
      rw [in_sf, ← Option.some.inj h]
      exact hc
    · rw [if_neg hc] at h
      exact sample_sf_in_sf cs p h

/-- Witness for C1 at the concrete candidate (37.76, -122.44), a point
inside the perimeter: the sampler accepts it and `in_sf` holds. -/
theorem sample_sf_in_sf_witness : in_sf (37.76, -122.44) = true :=
  sample_sf_in_sf [(37.76, -122.44)] (37.76, -122.44)
    (by norm_num [sample_sf, contains_point, cyclePairs, pathPairs, sf_perim, crossesRay,
          List.countP_cons, List.getLastD_cons])

/-- C8: every point strictly outside the bounding box of the perimeter
vertices (latitude below `ymin` or above `ymax`, or longitude below
`xmin` or above `xmax`) fails the membership test `in_sf`. -/
theorem in_sf_outside_bbox (p : ℚ × ℚ)
    (h : p.1 < ymin ∨ ymax < p.1 ∨ p.2 < xmin ∨ xmax < p.2) :
    in_sf p = false := by
  have key : ((cyclePairs sf_perim).countP (fun e => crossesRay e p)) % 2 = 0 := by
    rcases h with h | h | h | h
    · -- latitude below every vertex: no edge straddles the scan line
      have hz : ∀ e ∈ cyclePairs sf_perim, ¬((fun e => crossesRay e p) e = true) := by
        intro e he
        obtain ⟨h1, h2⟩ := mem_cyclePairs _ _ he
        have b1 := (sf_vertex_bounds _ h1).1
        have b2 := (sf_vertex_bounds _ h2).1
        have hv1 : decide (p.1 < e.1.1) = true := decide_eq_true (by linarith)
        have hv2 : decide (p.1 < e.2.1) = true := decide_eq_true (by linarith)
        simp [crossesRay, hv1, hv2]
      rw [List.countP_eq_zero.mpr hz]
    · -- latitude above every vertex: no edge straddles the scan line
      have hz : ∀ e ∈ cyclePairs sf_perim, ¬((fun e => crossesRay e p) e = true) := by
        intro e he
        obtain ⟨h1, h2⟩ := mem_cyclePairs _ _ he
        have b1 := (sf_vertex_bounds _ h1).2.1
        have b2 := (sf_vertex_bounds _ h2).2.1
        have hv1 : decide (p.1 < e.1.1) = false := decide_eq_false (by linarith)
        have hv2 : decide (p.1 < e.2.1) = false := decide_eq_false (by linarith)
        simp [crossesRay, hv1, hv2]
      rw [List.countP_eq_zero.mpr hz]
    · -- longitude left of every vertex: a straddling edge always crosses
      -- the ray, so the crossing count is the straddle count, which has
      -- even parity around the closed polygon
      have hc : ∀ e ∈ cyclePairs sf_perim,
          crossesRay e p = true ↔
            (decide (p.1 < e.1.1) != decide (p.1 < e.2.1)) = true := by
        intro e he
        obtain ⟨h1, h2⟩ := mem_cyclePairs _ _ he
        have b1 := (sf_vertex_bounds _ h1).2.2.1
        have b2 := (sf_vertex_bounds _ h2).2.2.1
        cases hsb : (decide (p.1 < e.1.1) != decide (p.1 < e.2.1)) with
        | false =>
          unfold crossesRay
          rw [hsb, Bool.false_and]
        | true =>
          have hs : decide (p.1 < e.1.1) ≠ decide (p.1 < e.2.1) := bne_iff_ne.mp hsb
          have hmin := (crossing_x_bounds e.1 e.2 p.1 hs).1
          have hx : p.2 < (e.2.2 - e.1.2) * (p.1 - e.1.1) / (e.2.1 - e.1.1) + e.1.2 := by
            have hm : xmin ≤ min e.1.2 e.2.2 := le_min b1 b2
            linarith
          unfold crossesRay
          rw [hsb, Bool.true_and]
          simp [hx]
      rw [List.countP_congr hc]
      exact cyclePairs_flip_even (fun v : ℚ × ℚ => decide (p.1 < v.1)) sf_perim
    · -- longitude right of every vertex: the ray can never reach an edge
      have hz : ∀ e ∈ cyclePairs sf_perim, ¬((fun e => crossesRay e p) e = true) := by
        intro e he
        obtain ⟨h1, h2⟩ := mem_cyclePairs _ _ he
        have b1 := (sf_vertex_bounds _ h1).2.2.2
        have b2 := (sf_vertex_bounds _ h2).2.2.2
        intro hcr
        unfold crossesRay at hcr
        rw [Bool.and_eq_true] at hcr
        have hs : decide (p.1 < e.1.1) ≠ decide (p.1 < e.2.1) := bne_iff_ne.mp hcr.1
        have hmax := (crossing_x_bounds e.1 e.2 p.1 hs).2
        have hx : p.2 < (e.2.2 - e.1.2) * (p.1 - e.1.1) / (e.2.1 - e.1.1) + e.1.2 :=
          of_decide_eq_true hcr.2
        have : max e.1.2 e.2.2 ≤ xmax := max_le b1 b2
        linarith
      rw [List.countP_eq_zero.mpr hz]
  rw [in_sf, contains_point, key]
  simp

/-- Witness for C8 at the concrete point (0, 0), whose latitude is
below the minimum vertex latitude. -/
theorem in_sf_outside_bbox_witness : in_sf (0, 0) = false :=
  in_sf_outside_bbox (0, 0)
    (Or.inl (by norm_num [ymin, npMin, lats, sf_perim, min_def]))

/-- C3 counterexample: on the docstring's own example input `"47m"`,
`parse_times` does not return 47 — the minute regex requires a space
before the `m`, so `re.search` returns `None` and the chained
`.group()` raises `AttributeError`. -/
theorem parse_times_47m_raises :
    parse_times "47m" = .error .attributeError ∧ parse_times "47m" ≠ .ok 47 ∧
      parse_times "1h 12m" = .error .attributeError ∧
      parse_times "2h" = .error .attributeError := by
  refine ⟨by decide, by decide, by decide, by decide⟩

/-- C3 amended: the parser satisfies the documented examples only in
their space-separated form, which is what the regexes `"[1-9] h"` and
`"[0-9]{0,2} m"` accept: one hour digit contributes sixty times its
value, the minute digits contribute their value, and an absent
component contributes zero. -/
theorem parse_times_spaced_examples :
    parse_times "47 m" = .ok 47 ∧ parse_times "1 h 12 m" = .ok 72 ∧
      parse_times "2 h" = .ok 120 := by
  refine ⟨?_, ?_, ?_⟩ <;> decide

/-- C4 counterexample: `parse_times ""` returns 0 rather than failing:
with neither an `h` nor an `m` in the text, both regex branches are
skipped and `hh + mm = 0` is returned. -/
theorem parse_times_empty_returns_zero : parse_times "" = .ok 0 := by
  decide

/-- C4 amended: for every input containing neither the character `h`
nor the character `m`, the parser silently returns 0; it has no
`UnparseableDuration` error at all (its only failure modes are the
`AttributeError`/`ValueError` raised when a trigger character is
present but the pattern around it does not match). -/
theorem parse_times_no_units (s : String) (hh : 'h' ∉ s.toList) (hm : 'm' ∉ s.toList) :
    parse_times s = .ok 0 := by
  simp only [parse_times]
  rw [if_neg hh, if_neg hm]

/-- Witness for the amended C4 at the concrete input `"x"`. -/
theorem parse_times_no_units_witness : parse_times "x" = .ok 0 :=
  parse_times_no_units "x" (by decide) (by decide)

/-! ### Database.record: validation, buffering, flushing -/

theorem isinstance_object (v : PyVal) : isinstance v PyType.object = true := by
  cases v <;> rfl

theorem checkLoop_false_idx :
    ∀ (ts : List PyType) (vs : List PyVal), checkLoop ts vs = Except.ok false →
      ∃ i, i < ts.length ∧ i < vs.length ∧
        isinstance (vs.getD i PyVal.none) (ts.getD i PyType.object) = false
  | [], vs, h => by simp [checkLoop] at h
  | _ :: _, [], h => by simp [checkLoop] at h
  | t :: ts, v :: vs, h => by
    rw [checkLoop] at h
    by_cases hv : isinstance v t = true
    · rw [if_pos hv] at h
      obtain ⟨i, hi1, hi2, hi3⟩ := checkLoop_false_idx ts vs h
      refine ⟨i + 1, by simpa using hi1, by simpa using hi2, ?_⟩
      simpa using hi3
    · refine ⟨0, by simp, by simp, ?_⟩
      simpa using hv

/-- C10: the `isinstance` validation of `Database.record` accepts any
value at the text positions — `arrive_add` (0), `depart_add` (4) and
`timestamp` (10) are checked against `object`, which every Python
value is an instance of — so a rejection can only come from one of the
coordinate or duration positions 1, 2, 3, 5, 6, 7, 8, 9. -/
theorem record_text_fields_never_reject :
    (∀ v : PyVal, isinstance v PyType.object = true) ∧
      (∀ data : List PyVal, checkLoop pyDtypes data = Except.ok false →
        ∃ i, i ∈ ([1, 2, 3, 5, 6, 7, 8, 9] : List Nat) ∧
          isinstance (data.getD i PyVal.none) (pyDtypes.getD i PyType.object) = false) := by
  constructor
  · exact isinstance_object
  · intro data h
    obtain ⟨i, hts, hvs, hbad⟩ := checkLoop_false_idx pyDtypes data h
    have hlen : i < 11 := by simpa [pyDtypes] using hts
    interval_cases i <;>
    first
      | exact ⟨_, by decide, hbad⟩
      | (simp only [pyDtypes, List.getD_cons_zero, List.getD_cons_succ] at hbad
         rw [isinstance_object] at hbad
         exact Bool.noConfusion hbad)

/-- Witness for C10: a row whose `arrive_lat` holds a string is
rejected, and the rejecting index is one of the numeric positions. -/
theorem record_text_fields_never_reject_witness :
    ∃ i, i ∈ ([1, 2, 3, 5, 6, 7, 8, 9] : List Nat) ∧
      isinstance (rowBad.getD i PyVal.none) (pyDtypes.getD i PyType.object) = false :=
  record_text_fields_never_reject.2 rowBad (by decide)

theorem recordSeq_from_partial (bs : Nat) :
    ∀ (rows : List (List PyVal)) (pre S : List (List PyVal)) (T : List Nat),
      (∀ r ∈ rows, checkLoop pyDtypes r = Except.ok true) →
      pre.length < bs → pre.length + rows.length ≤ bs →
      Database.recordSeq bs ⟨pre, S, T⟩ rows =
        Except.ok (if pre.length + rows.length = bs
          then ⟨[], S ++ (pre ++ rows), T ++ [bs]⟩
          else ⟨pre ++ rows, S, T⟩)
  | [], pre, S, T, _, hlt, _ => by
    rw [Database.recordSeq,
      if_neg (by simp only [List.length_nil]; omega), List.append_nil]
  | r :: rs, pre, S, T, hv, hlt, hle => by
    have hvr : checkLoop pyDtypes r = Except.ok true := hv r (List.mem_cons_self r rs)
    have hlr : (pre ++ [r]).length = pre.length + 1 := by simp
    have hle' : pre.length + (rs.length + 1) ≤ bs := by
      simpa only [List.length_cons] using hle
    rw [Database.recordSeq]
    simp only [Database.record, hvr]
    by_cases hflush : bs ≤ (pre ++ [r]).length
    · rw [hlr] at hflush
      have hbs : pre.length + 1 = bs := by omega
      have hrs : rs = [] := List.length_eq_zero.mp (by omega)
      subst hrs
      rw [if_pos (by rw [hlr]; exact hflush)]
      show Database.recordSeq bs
          ⟨[], S ++ (pre ++ [r]), T ++ [(pre ++ [r]).length]⟩ [] = _
      rw [Database.recordSeq, hlr, hbs,
        if_pos (by simp only [List.length_cons, List.length_nil]; omega)]
    · rw [hlr] at hflush
      have ih := recordSeq_from_partial bs rs (pre ++ [r]) S T
        (fun x hx => hv x (List.mem_cons_of_mem r hx))
        (by rw [hlr]; omega) (by rw [hlr]; omega)
      rw [if_neg (by rw [hlr]; exact hflush)]
      show Database.recordSeq bs ⟨pre ++ [r], S, T⟩ rs = _
      rw [ih]
      simp only [hlr, List.length_cons, List.append_assoc, List.singleton_append]
      rw [if_congr (by omega :
        (pre.length + 1 + rs.length = bs ↔ pre.length + (rs.length + 1) = bs)) rfl rfl]

/-- C2: starting from an empty buffer, feeding `record` a sequence of
well-typed rows no longer than the threshold buffers each row in order
with no storage write; when the sequence length reaches the threshold,
exactly `threshold` rows are written to storage in a single batched
transaction and the buffer is reset to empty. -/
theorem record_buffer_flush (bs : Nat) (rows : List (List PyVal)) (hbs : 1 ≤ bs)
    (hv : ∀ r ∈ rows, checkLoop pyDtypes r = Except.ok true) (hlen : rows.length ≤ bs) :
    Database.recordSeq bs dbInit rows =
      Except.ok (if rows.length = bs then ⟨[], rows, [bs]⟩ else ⟨rows, [], []⟩) := by
  have h := recordSeq_from_partial bs rows [] [] [] hv
    (by simp only [List.length_nil]; omega) (by simpa using hlen)
  simpa using h

/-- Witness for C2 with threshold 2: the first row only buffers, the
two rows together trigger exactly one flush of two rows. -/
theorem record_buffer_flush_witness :
    Database.recordSeq 2 dbInit [rowA] = Except.ok ⟨[rowA], [], []⟩ ∧
      Database.recordSeq 2 dbInit [rowA, rowB] = Except.ok ⟨[], [rowA, rowB], [2]⟩ := by
  constructor
  · have h := record_buffer_flush 2 [rowA] (by omega) (by decide) (by decide)
    simpa using h
  · have h := record_buffer_flush 2 [rowA, rowB] (by omega) (by decide) (by decide)
    simpa using h

/-- C6 counterexample: `record` never returns a boolean.  On the fully
well-typed row `rowA` it buffers the row but returns Python's `None`
(the function has no `return` on the success path), and on the
ill-typed row `rowBad` it also returns `None` rather than `False`. -/
theorem record_returns_none_counterexample :
    Database.record 100 dbInit rowA = Except.ok (⟨[rowA], [], []⟩, PyVal.none) ∧
      Database.record 100 dbInit rowBad = Except.ok (⟨[], [], []⟩, PyVal.none) ∧
      PyVal.none ≠ PyVal.bool true ∧ PyVal.none ≠ PyVal.bool false := by
  refine ⟨by decide, by decide, by decide, by decide⟩

/-- C6 amended: whenever `record` returns (rather than raising
`IndexError`), its return value is `None` — never `true` or `false`;
a row failing a type check leaves the state unchanged and is not
buffered, and a row passing all checks is appended to the buffer
(flushing to storage exactly when the threshold is reached). -/
theorem record_validation_returns_none (bs : Nat) (db : DBState) (data : List PyVal)
    (db' : DBState) (v : PyVal)
    (h : Database.record bs db data = Except.ok (db', v)) :
    v = PyVal.none ∧
      (checkLoop pyDtypes data = Except.ok false → db' = db) ∧
      (checkLoop pyDtypes data = Except.ok true →
        (db.data_buffer.length + 1 < bs →
          db'.data_buffer = db.data_buffer ++ [data] ∧ db'.storage = db.storage ∧
            db'.txns = db.txns) ∧
        (bs ≤ db.data_buffer.length + 1 →
          db'.data_buffer = [] ∧ db'.storage = db.storage ++ (db.data_buffer ++ [data]) ∧
            db'.txns = db.txns ++ [db.data_buffer.length + 1])) := by
  rw [Database.record] at h
  cases hc : checkLoop pyDtypes data with
  | error e => rw [hc] at h; exact Except.noConfusion h
  | ok b =>
    rw [hc] at h
    cases b with
    | false =>
      have h' : Except.ok ((db, PyVal.none) : DBState × PyVal) = Except.ok (db', v) := h
      obtain ⟨h1, h2⟩ := Prod.mk.inj (Except.ok.inj h')
      refine ⟨h2.symm, fun _ => h1.symm, fun ht => ?_⟩
      exact absurd (Except.ok.inj ht) (by decide)
    | true =>
      have hlr : (db.data_buffer ++ [data]).length = db.data_buffer.length + 1 := by simp
      by_cases hflush : bs ≤ (db.data_buffer ++ [data]).length
      · rw [if_pos hflush] at h
        obtain ⟨h1, h2⟩ := Prod.mk.inj (Except.ok.inj h)
        rw [hlr] at hflush
        refine ⟨h2.symm, fun hf => absurd (Except.ok.inj hf) (by decide), fun _ => ⟨?_, ?_⟩⟩
        · intro hlt
          omega
        · intro _
          rw [← h1]
          exact ⟨rfl, rfl, by rw [hlr]⟩
      · rw [if_neg hflush] at h
        obtain ⟨h1, h2⟩ := Prod.mk.inj (Except.ok.inj h)
        rw [hlr] at hflush
        refine ⟨h2.symm, fun hf => absurd (Except.ok.inj hf) (by decide), fun _ => ⟨?_, ?_⟩⟩
        · intro _
          rw [← h1]
          exact ⟨rfl, rfl, rfl⟩
        · intro hge
          omega

/-- Witness for the amended C6: recording `rowA` into a fresh database
with threshold 100 appends it to the buffer and writes nothing. -/
theorem record_validation_returns_none_witness :
    (⟨[rowA], [], []⟩ : DBState).data_buffer = dbInit.data_buffer ++ [rowA] ∧
      (⟨[rowA], [], []⟩ : DBState).storage = dbInit.storage ∧
      (⟨[rowA], [], []⟩ : DBState).txns = dbInit.txns :=
  ((record_validation_returns_none 100 dbInit rowA ⟨[rowA], [], []⟩ PyVal.none
      (by decide)).2.2 (by decide)).1 (by decide)

/-! ### muniScraper.run: the null filter, geocode failures, shared state -/

theorem castFloatV_ok_ne_none (v v' : PyVal) (h : castFloatV v = Except.ok v')
    (hv : v ≠ PyVal.none) : v' ≠ PyVal.none := by
  cases v with
  | none => exact absurd rfl hv
  | str s => exact Except.noConfusion h
  | int n => rw [← Except.ok.inj h]; exact fun hc => PyVal.noConfusion hc
  | float q => rw [← Except.ok.inj h]; exact fun hc => PyVal.noConfusion hc
  | bool b => rw [← Except.ok.inj h]; exact fun hc => PyVal.noConfusion hc

theorem castIntV_ok_ne_none (v v' : PyVal) (h : castIntV v = Except.ok v') :
    v' ≠ PyVal.none := by
  cases v with
  | int n => rw [← Except.ok.inj h]; exact fun hc => PyVal.noConfusion hc
  | bool b => rw [← Except.ok.inj h]; exact fun hc => PyVal.noConfusion hc
  | none => exact Except.noConfusion h
  | str s => exact Except.noConfusion h
  | float q => exact Except.noConfusion h

theorem castStrV_ne_none (v : PyVal) : castStrV v ≠ PyVal.none := by
  cases v <;> exact fun hc => PyVal.noConfusion hc

theorem nullCount_eq_zero_iff (r : DFRow) :
    r.nullCount = 0 ↔ ∀ c ∈ r.cells, c ≠ PyVal.none := by
  rw [DFRow.nullCount, List.countP_eq_zero]
  simp

theorem castRow_nullCount (r r' : DFRow) (h : castRow r = Except.ok r')
    (hn : r.nullCount = 0) : r'.nullCount = 0 := by
  have hm := (nullCount_eq_zero_iff r).mp hn
  rw [castRow] at h
  cases h1 : castFloatV r.arrive_lat with
  | error e => rw [h1] at h; exact Except.noConfusion h
  | ok alat =>
  rw [h1] at h
  cases h2 : castFloatV r.arrive_lon with
  | error e => rw [h2] at h; exact Except.noConfusion h
  | ok alon =>
  rw [h2] at h
  cases h3 : castFloatV r.depart_lat with
  | error e => rw [h3] at h; exact Except.noConfusion h
  | ok dlat =>
  rw [h3] at h
  cases h4 : castFloatV r.depart_lon with
  | error e => rw [h4] at h; exact Except.noConfusion h
  | ok dlon =>
  rw [h4] at h
  cases h5 : castIntV r.bicycle with
  | error e => rw [h5] at h; exact Except.noConfusion h
  | ok bi =>
  rw [h5] at h
  cases h6 : castIntV r.driving with
  | error e => rw [h6] at h; exact Except.noConfusion h
  | ok dr =>
  rw [h6] at h
  cases h7 : castIntV r.transit with
  | error e => rw [h7] at h; exact Except.noConfusion h
  | ok tr =>
  rw [h7] at h
  cases h8 : castIntV r.walk with
  | error e => rw [h8] at h; exact Except.noConfusion h
  | ok wa =>
  rw [h8] at h
  rw [← Except.ok.inj h]
  refine (nullCount_eq_zero_iff _).mpr ?_
  intro c hc
  simp only [DFRow.cells, List.mem_cons, List.not_mem_nil, or_false] at hc
  rcases hc with rfl | rfl | rfl | rfl | rfl | rfl | rfl | rfl | rfl | rfl | rfl
  · exact hm r.arrive_add (by simp [DFRow.cells])
  · exact castFloatV_ok_ne_none _ _ h1 (hm r.arrive_lat (by simp [DFRow.cells]))
  · exact castFloatV_ok_ne_none _ _ h2 (hm r.arrive_lon (by simp [DFRow.cells]))
  · exact castIntV_ok_ne_none _ _ h5
  · exact hm r.depart_add (by simp [DFRow.cells])
  · exact castFloatV_ok_ne_none _ _ h3 (hm r.depart_lat (by simp [DFRow.cells]))
  · exact castFloatV_ok_ne_none _ _ h4 (hm r.depart_lon (by simp [DFRow.cells]))
  · exact castIntV_ok_ne_none _ _ h6
  · exact castIntV_ok_ne_none _ _ h7
  · exact castIntV_ok_ne_none _ _ h8
  · exact castStrV_ne_none r.timestamp

theorem castRows_nullCount :
    ∀ (l l' : List DFRow), castRows l = Except.ok l' →
      (∀ r ∈ l, r.nullCount = 0) → ∀ r' ∈ l', r'.nullCount = 0
  | [], l', h, _ => by
    rw [castRows] at h
    rw [← Except.ok.inj h]
    intro r' hr'
    exact absurd hr' (List.not_mem_nil r')
  | r :: rs, l', h, hn => by
    rw [castRows] at h
    cases h1 : castRow r with
    | error e => rw [h1] at h; exact Except.noConfusion h
    | ok r0 =>
    rw [h1] at h
    cases h2 : castRows rs with
    | error e => rw [h2] at h; exact Except.noConfusion h
    | ok rs0 =>
    rw [h2] at h
    rw [← Except.ok.inj h]
    intro r' hr'
    rcases List.mem_cons.mp hr' with rfl | hr'
    · exact castRow_nullCount r r' h1 (hn r (List.mem_cons_self r rs))
    · exact castRows_nullCount rs rs0 h2 (fun x hx => hn x (List.mem_cons_of_mem r hx)) r' hr'

/-- C5: every row returned by `run` has zero null cells — the
`timesdf.isnull().sum(1) == 0` filter keeps only fully populated rows,
and the subsequent `astype` casts never produce a null. -/
theorem run_rows_no_nulls (st : TimesDF) (inp : RunInputs) (st' : TimesDF)
    (rows : List DFRow) (h : muniScraper.run st inp = Except.ok (st', rows)) :
    ∀ r ∈ rows, r.nullCount = 0 := by
  cases ha : inp.addr_arrive with
  | error e => rw [muniScraper.run, ha] at h; exact Except.noConfusion h
  | ok aAdd =>
  cases hd : inp.addr_depart with
  | error e => rw [muniScraper.run, ha, hd] at h; exact Except.noConfusion h
  | ok dAdd =>
  simp only [muniScraper.run, ha, hd] at h
  split at h
  · exact Except.noConfusion h
  · next out heq =>
    obtain ⟨h1, h2⟩ := Prod.mk.inj (Except.ok.inj h)
    rw [← h2]
    refine castRows_nullCount _ out heq ?_
    intro r hr
    rcases List.mem_append.mp hr with hr | hr
    · split at hr
      · next hcond => rw [List.mem_singleton.mp hr]; exact hcond
      · exact absurd hr (List.not_mem_nil r)
    · split at hr
      · next hcond => rw [List.mem_singleton.mp hr]; exact hcond
      · exact absurd hr (List.not_mem_nil r)

/-- Witness for C5: the cycle `inpGood 30` returns the two concrete
rows `rowOutA`, `rowOutB`; the first has zero null cells. -/
theorem run_rows_no_nulls_witness : rowOutA.nullCount = 0 :=
  run_rows_no_nulls timesdf0 (inpGood 30) ⟨rowOutA, rowOutB⟩ [rowOutA, rowOutB] rfl
    rowOutA (List.mem_cons_self rowOutA [rowOutB])

/-- C7 counterexample: when reverse-geocoding fails for the arrive
point, `run` does not substitute a placeholder address and continue —
`get_address` has no handler, so the exception propagates and the
whole cycle aborts with an error. -/
theorem run_geocode_failure_aborts : muniScraper.run timesdf0 inpGeoFail = Except.error () :=
  rfl

/-- C7 amended: a failure of either reverse-geocoding call propagates
out of `run` (aborting the cycle); no placeholder address is recorded
and no rows are returned. -/
theorem run_geocode_error_propagates (st : TimesDF) (inp : RunInputs)
    (h : inp.addr_arrive = Except.error () ∨ inp.addr_depart = Except.error ()) :
    muniScraper.run st inp = Except.error () := by
  rcases h with h | h
  · rw [muniScraper.run, h]
  · cases ha : inp.addr_arrive with
    | error e => rw [muniScraper.run, ha]
    | ok a => rw [muniScraper.run, ha, h]

/-- Witness for the amended C7: a depart-side geocoding failure aborts
the cycle. -/
theorem run_geocode_error_propagates_witness :
    muniScraper.run timesdf0 inpGeoFail2 = Except.error () :=
  run_geocode_error_propagates timesdf0 inpGeoFail2 (Or.inr rfl)

/-- C9 counterexample: `run` keeps mutable state across invocations
through the class-level `timesdf`.  Two first cycles identical except
for the outbound driving duration (30 vs 31), followed by the same
second cycle whose outbound `get_times()` returns `None`: the second
cycle's returned rows still contain the first cycle's driving value,
so a value written during the first invocation is observable in the
second invocation's output. -/
theorem run_cross_cycle_leak :
    secondRunDriving (inpGood 30) inpStale = some [PyVal.int 30, PyVal.int 9] ∧
      secondRunDriving (inpGood 31) inpStale = some [PyVal.int 31, PyVal.int 9] ∧
      secondRunDriving (inpGood 30) inpStale ≠ secondRunDriving (inpGood 31) inpStale := by
  refine ⟨rfl, rfl, fun heq => ?_⟩
  rw [show secondRunDriving (inpGood 30) inpStale = some [PyVal.int 30, PyVal.int 9] from rfl,
    show secondRunDriving (inpGood 31) inpStale = some [PyVal.int 31, PyVal.int 9] from rfl]
    at heq
  exact absurd heq (by decide)

/-- C9 amended: `run`'s working DataFrame is the class attribute
`timesdf`, mutated in place and shared across invocations; duration
cells are only overwritten when `get_times()` returns a dict, so when
the outbound `get_times()` is `None` the four outbound duration cells
keep whatever the previous cycles wrote there. -/
theorem run_gt_none_keeps_stale (st : TimesDF) (inp : RunInputs) (st' : TimesDF)
    (rows : List DFRow) (h0 : inp.gt0 = Option.none)
    (h : muniScraper.run st inp = Except.ok (st', rows)) :
    st'.row0.driving = st.row0.driving ∧ st'.row0.transit = st.row0.transit ∧
      st'.row0.walk = st.row0.walk ∧ st'.row0.bicycle = st.row0.bicycle := by
  cases ha : inp.addr_arrive with
  | error e => rw [muniScraper.run, ha] at h; exact Except.noConfusion h
  | ok aAdd =>
  cases hd : inp.addr_depart with
  | error e => rw [muniScraper.run, ha, hd] at h; exact Except.noConfusion h
  | ok dAdd =>
  simp only [muniScraper.run, ha, hd, h0, applyGT] at h
  split at h
  · exact Except.noConfusion h
  · next out heq =>
    obtain ⟨h1, h2⟩ := Prod.mk.inj (Except.ok.inj h)
    rw [← h1]
    exact ⟨rfl, rfl, rfl, rfl⟩

/-- Witness for the amended C9: running the stale cycle from a state
whose outbound driving cell holds 42 leaves 42 in the class state. -/
theorem run_gt_none_keeps_stale_witness : (PyVal.int 42 : PyVal) = stX.row0.driving := by
  have h := run_gt_none_keeps_stale stX inpStale _ _ rfl rfl
  exact h.1
